import Mathlib

/-!
Shallow embedding of the conference-room booking engine.

Times are modelled as integer milliseconds since the epoch, matching the
millisecond arithmetic the source performs on Date values.  The booking
store is a list of rows in insertion order; the SQL queries of
PostgresBookingRepository are embedded as list operations over that list.
The Redis cache is split into two association lists, one per key prefix
(the source uses the disjoint prefixes "booking:" and "idempotency:").
Each engine operation returns its result, the updated system state and a
trace of the calls it performed, which makes claims about which
collaborators were consulted directly statable.
-/

inductive BookingStatus where
  | PENDING
  | CONFIRMED
  | CANCELLED
deriving DecidableEq, Repr

structure Booking where
  id : String
  roomId : String
  userId : String
  title : String
  description : Option String
  startTime : Int
  endTime : Int
  status : BookingStatus
  idempotencyKey : Option String
  createdAt : Int
  updatedAt : Int
  cancelledAt : Option Int
deriving DecidableEq, Repr

structure CreateBookingData where
  roomId : String
  userId : String
  title : String
  description : Option String
  startTime : Int
  endTime : Int
  idempotencyKey : Option String
deriving DecidableEq, Repr

structure BookingFilter where
  roomId : Option String := none
  userId : Option String := none
  status : Option BookingStatus := none
  startTimeFrom : Option Int := none
  startTimeTo : Option Int := none
deriving DecidableEq, Repr

structure Room where
  id : String
  name : String
  capacity : Nat
  location : String
  amenities : List String
  isActive : Bool
  createdAt : Int
  updatedAt : Int
deriving DecidableEq, Repr

structure TimeSlot where
  startTime : Int
  endTime : Int
deriving DecidableEq, Repr

structure RoomAvailability where
  roomId : String
  date : Int
  availableSlots : List TimeSlot
  bookedSlots : List TimeSlot
deriving DecidableEq, Repr

inductive Event where
  | bookingCreated (booking : Booking) (timestamp : Int)
  | bookingCancelled (booking : Booking) (reason : Option String) (timestamp : Int)
  | roomUnavailable (roomId : String) (startTime endTime : Int)
      (conflictingBookingId : String) (timestamp : Int)
deriving DecidableEq, Repr

/-- Trace of collaborator calls an engine operation performs. -/
inductive Op where
  | cacheGetBooking (id : String)
  | cacheGetIdem (key : String)
  | cacheSetBooking (id : String)
  | cacheSetIdem (key : String)
  | cacheDeleteBooking (id : String)
  | roomFindById (id : String)
  | repoFindById (id : String)
  | repoFindByIdemKey (key : String)
  | validateTimes
  | repoFindConflicting (roomId : String) (startTime endTime : Int)
  | repoCreateOp
  | repoUpdateOp (id : String)
  | repoFindAllOp
  | emitEvent
deriving DecidableEq, Repr

structure BookingCacheEntry where
  key : String
  value : Booking
  ttl : Nat
deriving DecidableEq, Repr

structure IdemCacheEntry where
  key : String
  value : String
  ttl : Nat
deriving DecidableEq, Repr

structure SysState where
  rooms : List Room
  store : List Booking
  bookingCache : List BookingCacheEntry
  idemCache : List IdemCacheEntry
  events : List Event
deriving DecidableEq, Repr

/-- config.cache.ttl, 300 seconds. -/
def cacheTtl : Nat := 300

/-- config.cache.idempotencyTtl, 86400 seconds (24 hours). -/
def idempotencyTtl : Nat := 86400

/-- 8 hours in milliseconds, the maximum booking duration. -/
def maxDurationMs : Int := 8 * 60 * 60 * 1000

/-- 15 minutes in milliseconds, the minimum booking duration. -/
def minDurationMs : Int := 15 * 60 * 1000

def bcacheGet (c : List BookingCacheEntry) (k : String) : Option Booking :=
  (c.find? (fun e => e.key == k)).map (fun e => e.value)

def bcacheSet (c : List BookingCacheEntry) (k : String) (v : Booking) (ttl : Nat) :
    List BookingCacheEntry :=
  ⟨k, v, ttl⟩ :: c.filter (fun e => e.key != k)

def bcacheDelete (c : List BookingCacheEntry) (k : String) : List BookingCacheEntry :=
  c.filter (fun e => e.key != k)

def icacheGet (c : List IdemCacheEntry) (k : String) : Option String :=
  (c.find? (fun e => e.key == k)).map (fun e => e.value)

def icacheSet (c : List IdemCacheEntry) (k : String) (v : String) (ttl : Nat) :
    List IdemCacheEntry :=
  ⟨k, v, ttl⟩ :: c.filter (fun e => e.key != k)

/-- PostgresBookingRepository.findById: SELECT * FROM bookings WHERE id = $1. -/
def findById (store : List Booking) (id : String) : Option Booking :=
  store.find? (fun b => b.id == id)

/-- PostgresBookingRepository.findByIdempotencyKey. -/
def findByIdempotencyKey (store : List Booking) (key : String) : Option Booking :=
  store.find? (fun b => b.idempotencyKey == some key)

/-- Row predicate of PostgresBookingRepository.findConflictingBookings:
same room, status not CANCELLED, start_time < requested end and
end_time > requested start, optionally excluding one booking id. -/
def isConflicting (roomId : String) (startTime endTime : Int) (excl : Option String)
    (b : Booking) : Bool :=
  b.roomId == roomId && !(b.status == BookingStatus.CANCELLED) &&
  decide (b.startTime < endTime) && decide (b.endTime > startTime) &&
  (match excl with
   | some ex => !(b.id == ex)
   | none => true)

/-- PostgresBookingRepository.findConflictingBookings, rows in store order. -/
def findConflictingBookings (store : List Booking) (roomId : String)
    (startTime endTime : Int) (excl : Option String) : List Booking :=
  store.filter (isConflicting roomId startTime endTime excl)

/-- Stable insertion into a list sorted by startTime. -/
def insertByStart (b : Booking) : List Booking → List Booking
  | [] => [b]
  | x :: xs =>
      if decide (b.startTime ≤ x.startTime) then b :: x :: xs
      else x :: insertByStart b xs

/-- ORDER BY start_time ASC, as a stable insertion sort. -/
def sortByStart : List Booking → List Booking
  | [] => []
  | x :: xs => insertByStart x (sortByStart xs)

/-- Filter conjunction of PostgresBookingRepository.findAll. -/
def matchesFilter (f : BookingFilter) (b : Booking) : Bool :=
  (match f.roomId with
   | some r => b.roomId == r
   | none => true) &&
  (match f.userId with
   | some u => b.userId == u
   | none => true) &&
  (match f.status with
   | some s => b.status == s
   | none => true) &&
  (match f.startTimeFrom with
   | some t => decide (t ≤ b.startTime)
   | none => true) &&
  (match f.startTimeTo with
   | some t => decide (b.startTime ≤ t)
   | none => true)

/-- PostgresBookingRepository.findAll: filtered rows ordered by start_time. -/
def findAll (store : List Booking) (f : Option BookingFilter) : List Booking :=
  sortByStart (match f with
    | some fl => store.filter (matchesFilter fl)
    | none => store)

inductive RepoError where
  | uniqueViolation
deriving DecidableEq, Repr

/-- The row INSERTed by PostgresBookingRepository.create: status is set to
CONFIRMED, created_at and updated_at default to the current time. -/
def mkBooking (now : Int) (newId : String) (data : CreateBookingData) : Booking :=
  { id := newId
    roomId := data.roomId
    userId := data.userId
    title := data.title
    description := data.description
    startTime := data.startTime
    endTime := data.endTime
    status := BookingStatus.CONFIRMED
    idempotencyKey := data.idempotencyKey
    createdAt := now
    updatedAt := now
    cancelledAt := none }

/-- PostgresBookingRepository.create together with the schema's UNIQUE
constraint on idempotency_key: inserting a row whose idempotency key is
already present in the table fails with a unique-constraint violation.
Fresh uuid generation is modelled by the newId parameter. -/
def repoCreate (now : Int) (newId : String) (data : CreateBookingData)
    (store : List Booking) : Except RepoError (Booking × List Booking) :=
  match data.idempotencyKey with
  | some k =>
      if store.any (fun b => b.idempotencyKey == some k) then
        Except.error RepoError.uniqueViolation
      else
        let b := mkBooking now newId data
        Except.ok (b, store ++ [b])
  | none =>
      let b := mkBooking now newId data
      Except.ok (b, store ++ [b])

/-- Partial update payload of PostgresBookingRepository.update; a field of
value none is absent from the UPDATE statement. -/
structure BookingUpdate where
  title : Option String := none
  description : Option (Option String) := none
  status : Option BookingStatus := none
  cancelledAt : Option (Option Int) := none
deriving DecidableEq, Repr

def hasUpdateFields (u : BookingUpdate) : Bool :=
  u.title.isSome || u.description.isSome || u.status.isSome || u.cancelledAt.isSome

/-- Effect of the UPDATE row assignment on one row, updated_at included. -/
def applyUpdate (u : BookingUpdate) (now : Int) (b : Booking) : Booking :=
  { b with
    title := u.title.getD b.title
    description := u.description.getD b.description
    status := u.status.getD b.status
    cancelledAt := u.cancelledAt.getD b.cancelledAt
    updatedAt := now }

/-- PostgresBookingRepository.update: with no fields present it degrades to
findById; otherwise it updates every row with the given id, stamps
updated_at, and returns the first updated row. -/
def repoUpdate (now : Int) (id : String) (u : BookingUpdate) (store : List Booking) :
    Option Booking × List Booking :=
  if hasUpdateFields u then
    let store' := store.map (fun b => if b.id == id then applyUpdate u now b else b)
    (store'.find? (fun b => b.id == id), store')
  else
    (findById store id, store)

/-- PostgresRoomRepository.findById. -/
def roomFindById (rooms : List Room) (id : String) : Option Room :=
  rooms.find? (fun r => r.id == id)

inductive BookingError where
  | bookingNotFound (id : String)
  | roomNotFound (id : String)
  | roomUnavailable (roomId : String) (startTime endTime : Int)
  | bookingAlreadyCancelled (id : String)
  | invalidBookingTime (message : String)
  | storeError (e : RepoError)
deriving DecidableEq, Repr

/-- BookingService.validateBookingTimes, checks in source order. -/
def validateBookingTimes (now startTime endTime : Int) : Except String Unit :=
  if startTime < now then Except.error "Start time cannot be in the past"
  else if endTime ≤ startTime then Except.error "End time must be after start time"
  else if endTime - startTime > maxDurationMs then
    Except.error "Booking duration cannot exceed 8 hours"
  else if endTime - startTime < minDurationMs then
    Except.error "Booking duration must be at least 15 minutes"
  else Except.ok ()

/-- BookingService.checkIdempotency: consult the idempotency cache first;
on a hit resolve the cached booking id through the store, otherwise fall
back to the durable idempotency index. Read-only. -/
def checkIdempotency (key : String) (st : SysState) : Option Booking × List Op :=
  match icacheGet st.idemCache ("idempotency:" ++ key) with
  | some bid => (findById st.store bid, [Op.cacheGetIdem key, Op.repoFindById bid])
  | none => (findByIdempotencyKey st.store key, [Op.cacheGetIdem key, Op.repoFindByIdemKey key])

/-- The non-idempotent tail of BookingService.createBooking: room lookup,
time validation, conflict check, insert, cache writes, created event. -/
def createBookingCore (now : Int) (newId : String) (data : CreateBookingData)
    (st : SysState) (tr : List Op) : Except BookingError Booking × SysState × List Op :=
  match roomFindById st.rooms data.roomId with
  | none =>
      (Except.error (BookingError.roomNotFound data.roomId), st,
       tr ++ [Op.roomFindById data.roomId])
  | some _ =>
      let tr1 := tr ++ [Op.roomFindById data.roomId, Op.validateTimes]
      match validateBookingTimes now data.startTime data.endTime with
      | Except.error msg => (Except.error (BookingError.invalidBookingTime msg), st, tr1)
      | Except.ok _ =>
          let tr2 := tr1 ++ [Op.repoFindConflicting data.roomId data.startTime data.endTime]
          match findConflictingBookings st.store data.roomId data.startTime data.endTime none with
          | c :: _ =>
              let ev := Event.roomUnavailable data.roomId data.startTime data.endTime c.id now
              (Except.error (BookingError.roomUnavailable data.roomId data.startTime data.endTime),
               { st with events := st.events ++ [ev] }, tr2 ++ [Op.emitEvent])
          | [] =>
              match repoCreate now newId data st.store with
              | Except.error e =>
                  (Except.error (BookingError.storeError e), st, tr2 ++ [Op.repoCreateOp])
              | Except.ok (booking, store') =>
                  let st1 := { st with store := store' }
                  let st2 := match data.idempotencyKey with
                    | some key =>
                        { st1 with idemCache :=
                            (icacheSet st1.idemCache ("idempotency:" ++ key) booking.id idempotencyTtl) }
                    | none => st1
                  let trIdem := match data.idempotencyKey with
                    | some key => [Op.cacheSetIdem key]
                    | none => []
                  let st3 := { st2 with bookingCache :=
                      (bcacheSet st2.bookingCache ("booking:" ++ booking.id) booking cacheTtl) }
                  let st4 := { st3 with events :=
                      (st3.events ++ [Event.bookingCreated booking now]) }
                  (Except.ok booking, st4,
                   tr2 ++ [Op.repoCreateOp] ++ trIdem ++ [Op.cacheSetBooking booking.id, Op.emitEvent])

/-- BookingService.createBooking. -/
def createBooking (now : Int) (newId : String) (data : CreateBookingData)
    (st : SysState) : Except BookingError Booking × SysState × List Op :=
  match data.idempotencyKey with
  | some key =>
      match checkIdempotency key st with
      | (some b, tr) => (Except.ok b, st, tr)
      | (none, tr) => createBookingCore now newId data st tr
  | none => createBookingCore now newId data st []

/-- BookingService.getBooking: cache-aside read. -/
def getBooking (id : String) (st : SysState) : Except BookingError Booking × SysState × List Op :=
  match bcacheGet st.bookingCache ("booking:" ++ id) with
  | some b => (Except.ok b, st, [Op.cacheGetBooking id])
  | none =>
      match findById st.store id with
      | none =>
          (Except.error (BookingError.bookingNotFound id), st,
           [Op.cacheGetBooking id, Op.repoFindById id])
      | some b =>
          (Except.ok b,
           { st with bookingCache := bcacheSet st.bookingCache ("booking:" ++ id) b cacheTtl },
           [Op.cacheGetBooking id, Op.repoFindById id, Op.cacheSetBooking id])

/-- BookingService.getBookings: always delegates to the store. -/
def getBookings (f : Option BookingFilter) (st : SysState) :
    List Booking × SysState × List Op :=
  (findAll st.store f, st, [Op.repoFindAllOp])

/-- The partial update cancelBooking hands to the store: status CANCELLED
plus a cancellation timestamp. -/
def cancelUpdate (now : Int) : BookingUpdate :=
  { status := some BookingStatus.CANCELLED, cancelledAt := some (some now) }

/-- BookingService.cancelBooking. -/
def cancelBooking (now : Int) (id : String) (reason : Option String)
    (st : SysState) : Except BookingError Booking × SysState × List Op :=
  match findById st.store id with
  | none => (Except.error (BookingError.bookingNotFound id), st, [Op.repoFindById id])
  | some b =>
      if b.status == BookingStatus.CANCELLED then
        (Except.error (BookingError.bookingAlreadyCancelled id), st, [Op.repoFindById id])
      else
        match repoUpdate now id (cancelUpdate now) st.store with
        | (none, store') =>
            (Except.error (BookingError.bookingNotFound id), { st with store := store' },
             [Op.repoFindById id, Op.repoUpdateOp id])
        | (some updated, store') =>
            (Except.ok updated,
             { st with store := store',
                       bookingCache := bcacheDelete st.bookingCache ("booking:" ++ id),
                       events := st.events ++ [Event.bookingCancelled updated reason now] },
             [Op.repoFindById id, Op.repoUpdateOp id, Op.cacheDeleteBooking id, Op.emitEvent])

/-- Cursor walk of PostgresRoomRepository.calculateAvailableSlots: the
final free slot of the source's post-loop check is the base case. -/
def calculateAvailableSlotsLoop (cur dayEnd : Int) : List TimeSlot → List TimeSlot
  | [] => if cur < dayEnd then [⟨cur, dayEnd⟩] else []
  | b :: rest =>
      (if cur < b.startTime then [(⟨cur, b.startTime⟩ : TimeSlot)] else []) ++
      calculateAvailableSlotsLoop (max cur b.endTime) dayEnd rest

/-- PostgresRoomRepository.calculateAvailableSlots. -/
def calculateAvailableSlots (dayStart dayEnd : Int) (bookedSlots : List TimeSlot) :
    List TimeSlot :=
  if bookedSlots.isEmpty then [⟨dayStart, dayEnd⟩]
  else calculateAvailableSlotsLoop dayStart dayEnd bookedSlots

/-- Milliseconds in one day. -/
def msPerDay : Int := 86400000

/-- 08:00 from midnight in milliseconds. -/
def businessStartMs : Int := 8 * 60 * 60 * 1000

/-- 18:00 from midnight in milliseconds. -/
def businessEndMs : Int := 18 * 60 * 60 * 1000

/-- PostgresRoomRepository.getAvailability; the day parameter is the
midnight timestamp of the requested date, so endOfDay (23:59:59.999) is
day + msPerDay - 1 and the business window is 08:00 to 18:00. -/
def getAvailability (roomId : String) (day : Int) (st : SysState) :
    Option RoomAvailability :=
  match roomFindById st.rooms roomId with
  | none => none
  | some _ =>
      let startOfDay := day
      let endOfDay := day + (msPerDay - 1)
      let rows := sortByStart (st.store.filter (fun b =>
        b.roomId == roomId && !(b.status == BookingStatus.CANCELLED) &&
        decide (startOfDay ≤ b.startTime) && decide (b.startTime < endOfDay)))
      let bookedSlots := rows.map (fun b => (⟨b.startTime, b.endTime⟩ : TimeSlot))
      let businessStart := day + businessStartMs
      let businessEnd := day + businessEndMs
      some ⟨roomId, day, calculateAvailableSlots businessStart businessEnd bookedSlots, bookedSlots⟩

/-- The idempotency step of createBooking resolves no existing booking:
either the request carries no token, or checkIdempotency returns none. -/
def idemUnresolved (data : CreateBookingData) (st : SysState) : Prop :=
  ∀ k, data.idempotencyKey = some k → (checkIdempotency k st).1 = none

theorem validateBookingTimes_ok_iff (now s e : Int) :
    validateBookingTimes now s e = Except.ok () ↔
      ¬(s < now ∨ e ≤ s ∨ e - s > maxDurationMs ∨ e - s < minDurationMs) := by
  unfold validateBookingTimes
  split_ifs with h1 h2 h3 h4 <;> simp_all

theorem createBookingCore_invalid_iff (now : Int) (newId : String)
    (data : CreateBookingData) (st : SysState) (tr : List Op) (r : Room)
    (hroom : roomFindById st.rooms data.roomId = some r) :
    (∃ msg, (createBookingCore now newId data st tr).1 =
        Except.error (BookingError.invalidBookingTime msg)) ↔
      validateBookingTimes now data.startTime data.endTime ≠ Except.ok () := by
  unfold createBookingCore
  rw [hroom]
  rcases hval : validateBookingTimes now data.startTime data.endTime with msg | u
  · simp [hval]
  · rcases u
    rcases hconf : findConflictingBookings st.store data.roomId data.startTime data.endTime none
      with _ | ⟨c, cs⟩
    · rcases hcr : repoCreate now newId data st.store with e | ⟨b, store2⟩ <;> simp [hval, hconf, hcr]
    · simp [hval, hconf]

theorem createBookingCore_reaches_conflict_check (now : Int) (newId : String)
    (data : CreateBookingData) (st : SysState) (tr : List Op) (r : Room)
    (hroom : roomFindById st.rooms data.roomId = some r)
    (hval : validateBookingTimes now data.startTime data.endTime = Except.ok ()) :
    Op.repoFindConflicting data.roomId data.startTime data.endTime ∈
      (createBookingCore now newId data st tr).2.2 := by
  unfold createBookingCore
  rw [hroom, hval]
  rcases hconf : findConflictingBookings st.store data.roomId data.startTime data.endTime none
    with _ | ⟨c, cs⟩
  · rcases hcr : repoCreate now newId data st.store with e | ⟨b, store2⟩ <;>
      simp [hconf, hcr]
  · simp [hconf]

theorem createBooking_eq_core (now : Int) (newId : String) (data : CreateBookingData)
    (st : SysState) (h : idemUnresolved data st) :
    ∃ tr, createBooking now newId data st = createBookingCore now newId data st tr := by
  unfold createBooking
  rcases hk : data.idempotencyKey with _ | k
  · exact ⟨[], rfl⟩
  · have h2 := h k hk
    rcases hchk : checkIdempotency k st with ⟨ob, tr⟩
    rw [hchk] at h2
    simp only at h2
    subst h2
    refine ⟨tr, ?_⟩
    dsimp only
    rw [hchk]

/-- C3: after the idempotency and resource-existence steps, createBooking
fails with an InvalidInterval condition if and only if the start is
strictly before the current time, or the end is at or before the start,
or the duration exceeds 8 hours, or the duration is below 15 minutes;
validateBookingTimes applies the checks in the order past-time, order,
max-duration, min-duration, and a request passing all four proceeds to
the conflict check. -/
theorem c3_interval_validation :
    (∀ now s e : Int,
        validateBookingTimes now s e = Except.ok () ↔
          ¬(s < now ∨ e ≤ s ∨ e - s > maxDurationMs ∨ e - s < minDurationMs))
  ∧ (∀ now s e : Int, s < now →
        validateBookingTimes now s e = Except.error "Start time cannot be in the past")
  ∧ (∀ now s e : Int, ¬s < now → e ≤ s →
        validateBookingTimes now s e = Except.error "End time must be after start time")
  ∧ (∀ now s e : Int, ¬s < now → ¬e ≤ s → e - s > maxDurationMs →
        validateBookingTimes now s e = Except.error "Booking duration cannot exceed 8 hours")
  ∧ (∀ now s e : Int, ¬s < now → ¬e ≤ s → ¬e - s > maxDurationMs → e - s < minDurationMs →
        validateBookingTimes now s e = Except.error "Booking duration must be at least 15 minutes")
  ∧ (∀ (now : Int) (newId : String) (data : CreateBookingData) (st : SysState) (r : Room),
        idemUnresolved data st →
        roomFindById st.rooms data.roomId = some r →
        ((∃ msg, (createBooking now newId data st).1 =
            Except.error (BookingError.invalidBookingTime msg)) ↔
          (data.startTime < now ∨ data.endTime ≤ data.startTime ∨
           data.endTime - data.startTime > maxDurationMs ∨
           data.endTime - data.startTime < minDurationMs)))
  ∧ (∀ (now : Int) (newId : String) (data : CreateBookingData) (st : SysState) (r : Room),
        idemUnresolved data st →
        roomFindById st.rooms data.roomId = some r →
        validateBookingTimes now data.startTime data.endTime = Except.ok () →
        Op.repoFindConflicting data.roomId data.startTime data.endTime ∈
          (createBooking now newId data st).2.2) := by
  refine ⟨?_, ?_, ?_, ?_, ?_, ?_, ?_⟩
  · exact validateBookingTimes_ok_iff
  · intro now s e h1
    unfold validateBookingTimes
    rw [if_pos h1]
  · intro now s e h1 h2
    unfold validateBookingTimes
    rw [if_neg h1, if_pos h2]
  · intro now s e h1 h2 h3
    unfold validateBookingTimes
    rw [if_neg h1, if_neg h2, if_pos h3]
  · intro now s e h1 h2 h3 h4
    unfold validateBookingTimes
    rw [if_neg h1, if_neg h2, if_neg h3, if_pos h4]
  · intro now newId data st r hidem hroom
    obtain ⟨tr, heq⟩ := createBooking_eq_core now newId data st hidem
    rw [heq, createBookingCore_invalid_iff now newId data st tr r hroom]
    rw [Ne, validateBookingTimes_ok_iff, not_not]
  · intro now newId data st r hidem hroom hval
    obtain ⟨tr, heq⟩ := createBooking_eq_core now newId data st hidem
    rw [heq]
    exact createBookingCore_reaches_conflict_check now newId data st tr r hroom hval

/-- Witness for C3 at concrete inputs: with now = 0 a request from 5 to 3
is rejected for inverted order, and an idempotency-free request in a state
holding one room reaches the conflict check. -/
theorem c3_interval_validation_witness :
    validateBookingTimes 0 5 3 = Except.error "End time must be after start time" ∧
    validateBookingTimes 0 0 900000 = Except.ok () :=
  ⟨c3_interval_validation.2.2.1 0 5 3 (by decide) (by decide),
   (c3_interval_validation.1 0 0 900000).2 (by decide)⟩

/-- A sample room used by concrete scenarios. -/
def roomR1 : Room :=
  { id := "R1", name := "Salle R1", capacity := 10, location := "A",
    amenities := [], isActive := true, createdAt := 0, updatedAt := 0 }

/-- Booking A of the availability scenario: 10:00 to 14:00 on day 0. -/
def bookingA : Booking :=
  { id := "A", roomId := "R1", userId := "u1", title := "offsite",
    description := none, startTime := 36000000, endTime := 50400000,
    status := BookingStatus.CONFIRMED, idempotencyKey := none,
    createdAt := 0, updatedAt := 0, cancelledAt := none }

/-- Membership of a time point in a half-open slot. -/
def slotCovers (s : TimeSlot) (t : Int) : Prop :=
  s.startTime ≤ t ∧ t < s.endTime

instance (s : TimeSlot) (t : Int) : Decidable (slotCovers s t) := by
  unfold slotCovers
  infer_instance

/-- A time point lies in some slot of the list. -/
def coveredBy (l : List TimeSlot) (t : Int) : Prop :=
  ∃ s ∈ l, slotCovers s t

instance (l : List TimeSlot) (t : Int) : Decidable (coveredBy l t) := by
  unfold coveredBy
  infer_instance

theorem coveredBy_append (l1 l2 : List TimeSlot) (t : Int) :
    coveredBy (l1 ++ l2) t ↔ coveredBy l1 t ∨ coveredBy l2 t := by
  simp [coveredBy, List.mem_append, or_and_right, exists_or]

theorem coveredBy_cons (b : TimeSlot) (rest : List TimeSlot) (t : Int) :
    coveredBy (b :: rest) t ↔ slotCovers b t ∨ coveredBy rest t := by
  simp [coveredBy, List.mem_cons, or_and_right, exists_or]

theorem coveredBy_nil (t : Int) : ¬ coveredBy [] t := by
  simp [coveredBy]

/-- Every slot the cursor walk emits starts at or after the cursor. -/
theorem mem_availLoop_cursor_le (booked : List TimeSlot) :
    ∀ (cur dayEnd : Int) (s : TimeSlot),
      s ∈ calculateAvailableSlotsLoop cur dayEnd booked → cur ≤ s.startTime := by
  induction booked with
  | nil =>
      intro cur dayEnd s hs
      unfold calculateAvailableSlotsLoop at hs
      split at hs
      · simp at hs
        subst hs
        exact le_refl _
      · simp at hs
  | cons b rest ih =>
      intro cur dayEnd s hs
      unfold calculateAvailableSlotsLoop at hs
      rw [List.mem_append] at hs
      rcases hs with h | h
      · split at h
        · simp at h
          subst h
          exact le_refl _
        · simp at h
      · exact le_trans (le_max_left _ _) (ih (max cur b.endTime) dayEnd s h)

/-- Core correctness of the cursor walk: for sorted, pairwise
non-overlapping, nonempty booked intervals, a point at or after the
cursor and before the window end is free exactly when no booked interval
contains it. -/
theorem availLoop_covers_iff (booked : List TimeSlot) :
    ∀ (cur dayEnd t : Int),
      (∀ s ∈ booked, s.startTime < s.endTime) →
      booked.Pairwise (fun a b => a.endTime ≤ b.startTime) →
      cur ≤ t → t < dayEnd →
      (coveredBy (calculateAvailableSlotsLoop cur dayEnd booked) t ↔ ¬ coveredBy booked t) := by
  induction booked with
  | nil =>
      intro cur dayEnd t hne hpw hct htd
      unfold calculateAvailableSlotsLoop
      rw [if_pos (lt_of_le_of_lt hct htd)]
      simp [coveredBy, slotCovers]
      exact ⟨hct, htd⟩
  | cons b rest ih =>
      intro cur dayEnd t hne hpw hct htd
      have hb : b.startTime < b.endTime := hne b (List.mem_cons_self b rest)
      have hrest_ne : ∀ s ∈ rest, s.startTime < s.endTime :=
        fun s hs => hne s (List.mem_cons_of_mem b hs)
      rw [List.pairwise_cons] at hpw
      obtain ⟨hb_rest, hpw_rest⟩ := hpw
      unfold calculateAvailableSlotsLoop
      rw [coveredBy_append, coveredBy_cons]
      by_cases htb : t < b.endTime
      · have hrest_not : ¬ coveredBy rest t := by
          rintro ⟨s, hs, hcov⟩
          exact absurd (le_trans (hb_rest s hs) hcov.1) (not_le.mpr htb)
        have hloop_not : ¬ coveredBy (calculateAvailableSlotsLoop (max cur b.endTime) dayEnd rest) t := by
          rintro ⟨s, hs, hcov⟩
          have h1 := mem_availLoop_cursor_le rest (max cur b.endTime) dayEnd s hs
          have h2 : b.endTime ≤ t := le_trans (le_trans (le_max_right _ _) h1) hcov.1
          exact absurd h2 (not_le.mpr htb)
        by_cases hts : t < b.startTime
        · have hcur_lt : cur < b.startTime := lt_of_le_of_lt hct hts
          rw [if_pos hcur_lt]
          have hfree : coveredBy [(⟨cur, b.startTime⟩ : TimeSlot)] t :=
            ⟨⟨cur, b.startTime⟩, List.mem_singleton.mpr rfl, ⟨hct, hts⟩⟩
          have hbnot : ¬ slotCovers b t := fun hcov => absurd hcov.1 (not_le.mpr hts)
          tauto
        · have hbcov : slotCovers b t := ⟨not_lt.mp hts, htb⟩
          have hempty_not : ∀ l : List TimeSlot,
              (l = [(⟨cur, b.startTime⟩ : TimeSlot)] ∨ l = []) → ¬ coveredBy l t := by
            rintro l (rfl | rfl)
            · rintro ⟨s, hs, hcov⟩
              rw [List.mem_singleton] at hs
              subst hs
              exact absurd hcov.2 hts
            · exact coveredBy_nil t
          have hif_not : ¬ coveredBy (if cur < b.startTime then [(⟨cur, b.startTime⟩ : TimeSlot)] else []) t := by
            split
            · exact hempty_not _ (Or.inl rfl)
            · exact hempty_not _ (Or.inr rfl)
          tauto
      · have hmax : max cur b.endTime ≤ t := max_le hct (not_lt.mp htb)
        have hIH := ih (max cur b.endTime) dayEnd t hrest_ne hpw_rest hmax htd
        have hbnot : ¬ slotCovers b t := fun hcov => absurd hcov.2 htb
        have hif_not : ¬ coveredBy (if cur < b.startTime then [(⟨cur, b.startTime⟩ : TimeSlot)] else []) t := by
          split
          · rintro ⟨s, hs, hcov⟩
            rw [List.mem_singleton] at hs
            subst hs
            exact absurd (lt_of_lt_of_le hb (not_lt.mp htb)) (not_lt.mpr (le_of_lt hcov.2))
          · exact coveredBy_nil t
        tauto

/-- C6: the availability computation walks a cursor from the window
start, emitting a free slot before each booked interval and a final slot
up to the window end; with no booked intervals the whole window is one
free slot, and for room R1 on day 0 with the single booking 10:00-14:00
getAvailability returns available slots 08:00-10:00 and 14:00-18:00 and
booked slot 10:00-14:00. -/
theorem c6_availability_computation :
    (∀ dayStart dayEnd : Int,
        calculateAvailableSlots dayStart dayEnd [] = [⟨dayStart, dayEnd⟩])
  ∧ (∀ (cur dayEnd : Int) (b : TimeSlot) (rest : List TimeSlot),
        calculateAvailableSlotsLoop cur dayEnd (b :: rest) =
          (if cur < b.startTime then [(⟨cur, b.startTime⟩ : TimeSlot)] else []) ++
          calculateAvailableSlotsLoop (max cur b.endTime) dayEnd rest)
  ∧ (∀ cur dayEnd : Int,
        calculateAvailableSlotsLoop cur dayEnd [] =
          if cur < dayEnd then [⟨cur, dayEnd⟩] else [])
  ∧ getAvailability "R1" 0
      { rooms := [roomR1], store := [bookingA], bookingCache := [],
        idemCache := [], events := [] } =
      some { roomId := "R1", date := 0,
             availableSlots := [⟨28800000, 36000000⟩, ⟨50400000, 64800000⟩],
             bookedSlots := [⟨36000000, 50400000⟩] } := by
  refine ⟨?_, ?_, ?_, ?_⟩
  · intro dayStart dayEnd
    rfl
  · intro cur dayEnd b rest
    rfl
  · intro cur dayEnd
    rfl
  · rfl

/-- C7: for every set of pairwise non-overlapping booked intervals sorted
by start, each point of the 08:00-18:00 working window is covered by the
computed available slots exactly when it is covered by no booked
interval: booked and available slots, clipped to the window, reconstruct
the window with no gaps and no cross overlaps. -/
theorem c7_availability_round_trip (day : Int) (booked : List TimeSlot)
    (hne : ∀ s ∈ booked, s.startTime < s.endTime)
    (hsorted : booked.Pairwise (fun a b => a.endTime ≤ b.startTime)) :
    ∀ t : Int, day + businessStartMs ≤ t → t < day + businessEndMs →
      (coveredBy (calculateAvailableSlots (day + businessStartMs) (day + businessEndMs) booked) t ↔
        ¬ coveredBy booked t) := by
  intro t h1 h2
  rcases booked with _ | ⟨b, rest⟩
  · unfold calculateAvailableSlots
    simp only [List.isEmpty_nil, if_true]
    simp [coveredBy, slotCovers]
    exact ⟨h1, h2⟩
  · unfold calculateAvailableSlots
    simp only [List.isEmpty_cons, Bool.false_eq_true, if_false]
    exact availLoop_covers_iff (b :: rest) _ _ t hne hsorted h1 h2

/-- Witness for C7 at the scenario inputs: with the single booking
10:00-14:00 the point 08:20 lies in a computed free slot and the point
11:00 does not. -/
theorem c7_availability_round_trip_witness :
    coveredBy (calculateAvailableSlots (0 + businessStartMs) (0 + businessEndMs)
      [⟨36000000, 50400000⟩]) 30000000 ∧
    ¬ coveredBy (calculateAvailableSlots (0 + businessStartMs) (0 + businessEndMs)
      [⟨36000000, 50400000⟩]) 40000000 :=
  ⟨(c7_availability_round_trip 0 [⟨36000000, 50400000⟩] (by decide) (by decide)
      30000000 (by decide) (by decide)).mpr (by decide),
   fun h => ((c7_availability_round_trip 0 [⟨36000000, 50400000⟩] (by decide) (by decide)
      40000000 (by decide) (by decide)).mp h) (by decide)⟩

/-- What a booking row looks like after the cancellation update. -/
def cancelledVersion (now : Int) (b : Booking) : Booking :=
  { b with status := BookingStatus.CANCELLED, cancelledAt := some now, updatedAt := now }

theorem findById_map_update (store : List Booking) (id : String) (f : Booking → Booking)
    (hid : ∀ b, (f b).id = b.id) :
    (store.map (fun b => if b.id == id then f b else b)).find? (fun b => b.id == id) =
      (store.find? (fun b => b.id == id)).map (fun b => if b.id == id then f b else b) := by
  rw [List.find?_map]
  have hcomp : ((fun b => b.id == id) ∘ fun b => if b.id == id then f b else b) =
      fun b => b.id == id := by
    funext b
    show ((if b.id == id then f b else b).id == id) = (b.id == id)
    cases hb : (b.id == id) with
    | true => simp [hb, hid]
    | false => simp [hb]
  rw [hcomp]

theorem cancelBooking_success_eq (now : Int) (id : String) (reason : Option String)
    (st : SysState) (b : Booking)
    (hfind : findById st.store id = some b)
    (hstat : b.status ≠ BookingStatus.CANCELLED) :
    cancelBooking now id reason st =
      (Except.ok (cancelledVersion now b),
       { st with
         store := st.store.map (fun x => if x.id == id then cancelledVersion now x else x),
         bookingCache := bcacheDelete st.bookingCache ("booking:" ++ id),
         events := st.events ++ [Event.bookingCancelled (cancelledVersion now b) reason now] },
       [Op.repoFindById id, Op.repoUpdateOp id, Op.cacheDeleteBooking id, Op.emitEvent]) := by
  have hbfalse : (b.status == BookingStatus.CANCELLED) = false := by
    rw [beq_eq_false_iff_ne]
    exact hstat
  have hfind' : st.store.find? (fun x => x.id == id) = some b := hfind
  have hbid : (b.id == id) = true := by simpa using List.find?_some hfind'
  have hupd : repoUpdate now id (cancelUpdate now) st.store =
      (some (cancelledVersion now b),
       st.store.map (fun x => if x.id == id then cancelledVersion now x else x)) := by
    unfold repoUpdate
    rw [if_pos (by rfl : hasUpdateFields (cancelUpdate now) = true)]
    have h1 := findById_map_update st.store id
      (applyUpdate (cancelUpdate now) now) (fun x => rfl)
    dsimp only
    rw [h1, hfind']
    have : (if b.id == id then applyUpdate (cancelUpdate now) now b else b) =
        cancelledVersion now b := by
      rw [if_pos hbid]
      rfl
    dsimp only [Option.map]
    rw [this]
    rfl
  unfold cancelBooking
  rw [hfind]
  dsimp only
  simp only [hbfalse, Bool.false_eq_true, if_false]
  rw [hupd]

/-- C8: cancelBooking fails NotFound when the booking is absent, fails
AlreadyCancelled (an observable error, never a silent success) when the
status is already CANCELLED, and otherwise stamps status CANCELLED and a
cancellation time, persists, deletes the per-booking cache entry,
publishes a booking-cancelled event with the updated booking and the
optional reason, and returns the updated booking. -/
theorem c8_cancel_booking :
    (∀ (now : Int) (id : String) (reason : Option String) (st : SysState),
        findById st.store id = none →
        cancelBooking now id reason st =
          (Except.error (BookingError.bookingNotFound id), st, [Op.repoFindById id]))
  ∧ (∀ (now : Int) (id : String) (reason : Option String) (st : SysState) (b : Booking),
        findById st.store id = some b → b.status = BookingStatus.CANCELLED →
        cancelBooking now id reason st =
          (Except.error (BookingError.bookingAlreadyCancelled id), st, [Op.repoFindById id]))
  ∧ (∀ (now : Int) (id : String) (reason : Option String) (st : SysState) (b : Booking),
        findById st.store id = some b → b.status ≠ BookingStatus.CANCELLED →
        cancelBooking now id reason st =
          (Except.ok (cancelledVersion now b),
           { st with
             store := st.store.map (fun x => if x.id == id then cancelledVersion now x else x),
             bookingCache := bcacheDelete st.bookingCache ("booking:" ++ id),
             events := st.events ++ [Event.bookingCancelled (cancelledVersion now b) reason now] },
           [Op.repoFindById id, Op.repoUpdateOp id, Op.cacheDeleteBooking id, Op.emitEvent])) := by
  refine ⟨?_, ?_, ?_⟩
  · intro now id reason st hfind
    unfold cancelBooking
    rw [hfind]
  · intro now id reason st b hfind hstat
    unfold cancelBooking
    rw [hfind]
    dsimp only
    rw [hstat]
    simp
  · exact fun now id reason st b hfind hstat =>
      cancelBooking_success_eq now id reason st b hfind hstat

/-- A state holding room R1 and the single confirmed booking A. -/
def stOneBooking : SysState :=
  { rooms := [roomR1], store := [bookingA], bookingCache := [], idemCache := [], events := [] }

/-- A state whose only booking is already cancelled. -/
def stCancelled : SysState :=
  { rooms := [roomR1], store := [cancelledVersion 5 bookingA], bookingCache := [],
    idemCache := [], events := [] }

/-- Witness for C8 at concrete inputs: cancelling booking A succeeds while
cancelling it again and cancelling a missing id are observable errors. -/
theorem c8_cancel_booking_witness :
    (cancelBooking 5 "A" (some "moved") stOneBooking).1 =
        Except.ok (cancelledVersion 5 bookingA) ∧
    (cancelBooking 99 "A" none stCancelled).1 =
        Except.error (BookingError.bookingAlreadyCancelled "A") ∧
    (cancelBooking 99 "Z" none stOneBooking).1 =
        Except.error (BookingError.bookingNotFound "Z") := by
  refine ⟨?_, ?_, ?_⟩
  · rw [c8_cancel_booking.2.2 5 "A" (some "moved") stOneBooking bookingA rfl (by decide)]
  · rw [c8_cancel_booking.2.1 99 "A" none stCancelled (cancelledVersion 5 bookingA) rfl rfl]
  · rw [c8_cancel_booking.1 99 "Z" none stOneBooking rfl]

/-- C9: getBooking is cache-aside: a cached value under booking:id is
returned with no store access (so an out-of-band store mutation is not
observed); on a miss an absent booking fails NotFound, and a present one
is returned after populating the cache with the short TTL. -/
theorem c9_get_booking_cache_aside :
    (∀ (id : String) (st : SysState) (b : Booking),
        bcacheGet st.bookingCache ("booking:" ++ id) = some b →
        getBooking id st = (Except.ok b, st, [Op.cacheGetBooking id]))
  ∧ (∀ (id : String) (st : SysState),
        bcacheGet st.bookingCache ("booking:" ++ id) = none →
        findById st.store id = none →
        getBooking id st = (Except.error (BookingError.bookingNotFound id), st,
          [Op.cacheGetBooking id, Op.repoFindById id]))
  ∧ (∀ (id : String) (st : SysState) (b : Booking),
        bcacheGet st.bookingCache ("booking:" ++ id) = none →
        findById st.store id = some b →
        getBooking id st = (Except.ok b,
          { st with bookingCache := bcacheSet st.bookingCache ("booking:" ++ id) b cacheTtl },
          [Op.cacheGetBooking id, Op.repoFindById id, Op.cacheSetBooking id])) := by
  refine ⟨?_, ?_, ?_⟩
  · intro id st b hc
    unfold getBooking
    rw [hc]
  · intro id st hc hf
    unfold getBooking
    rw [hc]
    dsimp only
    rw [hf]
  · intro id st b hc hf
    unfold getBooking
    rw [hc]
    dsimp only
    rw [hf]

/-- Booking A as mutated out-of-band in the store. -/
def bookingAmut : Booking :=
  { bookingA with title := "changed out of band" }

/-- A state where the cache holds booking A but the store was mutated. -/
def stStale : SysState :=
  { rooms := [roomR1], store := [bookingAmut],
    bookingCache := [⟨"booking:A", bookingA, 300⟩], idemCache := [], events := [] }

/-- Witness for C9: with a populated cache entry the stale cached booking
is returned, not the mutated store row, and the store is not consulted. -/
theorem c9_get_booking_cache_aside_witness :
    getBooking "A" stStale = (Except.ok bookingA, stStale, [Op.cacheGetBooking "A"]) ∧
    bookingA ≠ bookingAmut :=
  ⟨c9_get_booking_cache_aside.1 "A" stStale bookingA rfl, by decide⟩

/-- C10: a successful cancellation changes only the status, cancelledAt
and updatedAt fields of the target booking; every identifying and
interval field is preserved and every other booking in the store is left
untouched. -/
theorem c10_cancel_frame (now : Int) (id : String) (reason : Option String)
    (st : SysState) (b : Booking)
    (hfind : findById st.store id = some b)
    (hstat : b.status ≠ BookingStatus.CANCELLED) :
    (∃ ub, (cancelBooking now id reason st).1 = Except.ok ub ∧
      ub.id = b.id ∧ ub.roomId = b.roomId ∧ ub.userId = b.userId ∧
      ub.title = b.title ∧ ub.description = b.description ∧
      ub.startTime = b.startTime ∧ ub.endTime = b.endTime ∧
      ub.idempotencyKey = b.idempotencyKey ∧ ub.createdAt = b.createdAt ∧
      ub.status = BookingStatus.CANCELLED ∧ ub.cancelledAt = some now ∧
      ub.updatedAt = now)
  ∧ (cancelBooking now id reason st).2.1.store =
      st.store.map (fun x => if x.id == id then cancelledVersion now x else x)
  ∧ ∀ x ∈ st.store, x.id ≠ id → x ∈ (cancelBooking now id reason st).2.1.store := by
  have h := cancelBooking_success_eq now id reason st b hfind hstat
  refine ⟨⟨cancelledVersion now b, ?_, rfl, rfl, rfl, rfl, rfl, rfl, rfl, rfl, rfl, rfl, rfl, rfl⟩,
    ?_, ?_⟩
  · rw [h]
  · rw [h]
  · intro x hx hne
    rw [h]
    dsimp only
    have hxid : (x.id == id) = false := by simp [hne]
    have hfix : (fun y => if y.id == id then cancelledVersion now y else y) x = x := by
      simp [hxid]
    have hmem := List.mem_map_of_mem (fun y => if y.id == id then cancelledVersion now y else y) hx
    rw [hfix] at hmem
    exact hmem

/-- Witness for C10 at concrete inputs: cancelling booking A preserves
its identifying fields and the store keeps exactly the updated row. -/
theorem c10_cancel_frame_witness :
    (cancelBooking 5 "A" none stOneBooking).2.1.store =
      [bookingA].map (fun x => if x.id == "A" then cancelledVersion 5 x else x) :=
  (c10_cancel_frame 5 "A" none stOneBooking bookingA rfl (by decide)).2.1

/-- C4: when a request reaches the conflict check and some non-cancelled
booking on the same resource overlaps the requested half-open interval,
createBooking publishes a resource-unavailable event carrying the room
id, the requested interval and the id of the first conflicting booking in
store order, fails with a Conflict condition, and leaves the store and
both caches unchanged. -/
theorem c4_conflict_path (now : Int) (newId : String) (data : CreateBookingData)
    (st : SysState) (r : Room) (c : Booking) (cs : List Booking)
    (hidem : idemUnresolved data st)
    (hroom : roomFindById st.rooms data.roomId = some r)
    (hval : validateBookingTimes now data.startTime data.endTime = Except.ok ())
    (hconf : findConflictingBookings st.store data.roomId data.startTime data.endTime none =
      c :: cs) :
    (createBooking now newId data st).1 =
        Except.error (BookingError.roomUnavailable data.roomId data.startTime data.endTime) ∧
    (createBooking now newId data st).2.1 =
      { st with events := st.events ++
          [Event.roomUnavailable data.roomId data.startTime data.endTime c.id now] } ∧
    (createBooking now newId data st).2.1.store = st.store ∧
    (createBooking now newId data st).2.1.bookingCache = st.bookingCache ∧
    (createBooking now newId data st).2.1.idemCache = st.idemCache := by
  obtain ⟨tr, heq⟩ := createBooking_eq_core now newId data st hidem
  rw [heq]
  unfold createBookingCore
  rw [hroom, hval]
  dsimp only
  rw [hconf]
  exact ⟨rfl, rfl, rfl, rfl, rfl⟩

/-- A request that overlaps booking A on room R1. -/
def dataConflict : CreateBookingData :=
  { roomId := "R1", userId := "u2", title := "clash", description := none,
    startTime := 40000000, endTime := 44000000, idempotencyKey := none }

/-- Witness for C4: the overlapping request against booking A fails with
Conflict, the unavailable event names booking A, and the store keeps only
booking A. -/
theorem c4_conflict_path_witness :
    (createBooking 0 "B" dataConflict stOneBooking).1 =
        Except.error (BookingError.roomUnavailable "R1" 40000000 44000000) ∧
    (createBooking 0 "B" dataConflict stOneBooking).2.1.events =
        [Event.roomUnavailable "R1" 40000000 44000000 "A" 0] ∧
    (createBooking 0 "B" dataConflict stOneBooking).2.1.store = [bookingA] := by
  have h := c4_conflict_path 0 "B" dataConflict stOneBooking roomR1 bookingA []
    (fun k hk => Option.noConfusion hk) rfl rfl rfl
  refine ⟨h.1, ?_, h.2.2.1⟩
  rw [h.2.1]
  rfl

theorem icacheGet_set_same (c : List IdemCacheEntry) (k v : String) (t : Nat) :
    icacheGet (icacheSet c k v t) k = some v := by
  simp [icacheGet, icacheSet]

theorem findByIdempotencyKey_none_any (store : List Booking) (k : String)
    (h : findByIdempotencyKey store k = none) :
    store.any (fun b => b.idempotencyKey == some k) = false := by
  unfold findByIdempotencyKey at h
  rw [List.find?_eq_none] at h
  rw [List.any_eq_false]
  exact h

theorem checkIdempotency_ops (k : String) (st : SysState) :
    ∀ op ∈ (checkIdempotency k st).2,
      (∃ s, op = Op.cacheGetIdem s) ∨ (∃ s, op = Op.repoFindById s) ∨
      (∃ s, op = Op.repoFindByIdemKey s) := by
  intro op hop
  unfold checkIdempotency at hop
  rcases h : icacheGet st.idemCache ("idempotency:" ++ k) with _ | bid
  · rw [h] at hop
    simp only [List.mem_cons, List.not_mem_nil, or_false] at hop
    rcases hop with rfl | rfl
    · exact Or.inl ⟨k, rfl⟩
    · exact Or.inr (Or.inr ⟨k, rfl⟩)
  · rw [h] at hop
    simp only [List.mem_cons, List.not_mem_nil, or_false] at hop
    rcases hop with rfl | rfl
    · exact Or.inl ⟨k, rfl⟩
    · exact Or.inr (Or.inl ⟨bid, rfl⟩)

/-- A resolvable idempotency token short-circuits createBooking. -/
theorem createBooking_replay (now : Int) (newId : String) (data : CreateBookingData)
    (st : SysState) (k : String) (b0 : Booking) (tr0 : List Op)
    (hk : data.idempotencyKey = some k)
    (hchk : checkIdempotency k st = (some b0, tr0)) :
    createBooking now newId data st = (Except.ok b0, st, tr0) := by
  unfold createBooking
  rw [hk]
  dsimp only
  rw [hchk]

theorem repoCreate_ok (now : Int) (newId : String) (data : CreateBookingData)
    (store : List Booking) (b : Booking) (store' : List Booking)
    (h : repoCreate now newId data store = Except.ok (b, store')) :
    b = mkBooking now newId data ∧ store' = store ++ [mkBooking now newId data] := by
  unfold repoCreate at h
  rcases hk : data.idempotencyKey with _ | k
  · rw [hk] at h
    dsimp only at h
    simp at h
    exact ⟨h.1.symm, h.2.symm⟩
  · rw [hk] at h
    dsimp only at h
    split at h
    · simp at h
    · simp at h
      exact ⟨h.1.symm, h.2.symm⟩

/-- Shape of createBookingCore when the room is missing. -/
theorem createBookingCore_noRoom_eq (now : Int) (newId : String)
    (data : CreateBookingData) (st : SysState) (tr : List Op)
    (hroom : roomFindById st.rooms data.roomId = none) :
    createBookingCore now newId data st tr =
      (Except.error (BookingError.roomNotFound data.roomId), st,
       tr ++ [Op.roomFindById data.roomId]) := by
  unfold createBookingCore
  rw [hroom]

/-- Shape of createBookingCore when time validation fails. -/
theorem createBookingCore_invalid_eq (now : Int) (newId : String)
    (data : CreateBookingData) (st : SysState) (tr : List Op) (r : Room) (msg : String)
    (hroom : roomFindById st.rooms data.roomId = some r)
    (hval : validateBookingTimes now data.startTime data.endTime = Except.error msg) :
    createBookingCore now newId data st tr =
      (Except.error (BookingError.invalidBookingTime msg), st,
       tr ++ [Op.roomFindById data.roomId, Op.validateTimes]) := by
  unfold createBookingCore
  rw [hroom]
  dsimp only
  rw [hval]

/-- Shape of createBookingCore when the store write fails. -/
theorem createBookingCore_storeError_eq (now : Int) (newId : String)
    (data : CreateBookingData) (st : SysState) (tr : List Op) (r : Room) (e : RepoError)
    (hroom : roomFindById st.rooms data.roomId = some r)
    (hval : validateBookingTimes now data.startTime data.endTime = Except.ok ())
    (hconf : findConflictingBookings st.store data.roomId data.startTime data.endTime none = [])
    (hcr : repoCreate now newId data st.store = Except.error e) :
    createBookingCore now newId data st tr =
      (Except.error (BookingError.storeError e), st,
       tr ++ [Op.roomFindById data.roomId, Op.validateTimes,
              Op.repoFindConflicting data.roomId data.startTime data.endTime,
              Op.repoCreateOp]) := by
  unfold createBookingCore
  rw [hroom, hval]
  dsimp only
  rw [hconf]
  dsimp only
  rw [hcr]
  simp

/-- Shape of createBookingCore on a successful tokenless creation. -/
theorem createBookingCore_success_none_eq (now : Int) (newId : String)
    (data : CreateBookingData) (st : SysState) (tr : List Op) (r : Room)
    (bk : Booking) (store2 : List Booking)
    (hk : data.idempotencyKey = none)
    (hroom : roomFindById st.rooms data.roomId = some r)
    (hval : validateBookingTimes now data.startTime data.endTime = Except.ok ())
    (hconf : findConflictingBookings st.store data.roomId data.startTime data.endTime none = [])
    (hcr : repoCreate now newId data st.store = Except.ok (bk, store2)) :
    createBookingCore now newId data st tr =
      (Except.ok bk,
       { st with store := store2,
                 bookingCache := bcacheSet st.bookingCache ("booking:" ++ bk.id) bk cacheTtl,
                 events := st.events ++ [Event.bookingCreated bk now] },
       tr ++ [Op.roomFindById data.roomId, Op.validateTimes,
              Op.repoFindConflicting data.roomId data.startTime data.endTime,
              Op.repoCreateOp, Op.cacheSetBooking bk.id, Op.emitEvent]) := by
  unfold createBookingCore
  rw [hroom, hval]
  dsimp only
  rw [hconf]
  dsimp only
  rw [hcr]
  dsimp only
  rw [hk]
  simp

/-- Shape of createBookingCore on a successful creation with a token. -/
theorem createBookingCore_success_some_eq (now : Int) (newId : String)
    (data : CreateBookingData) (st : SysState) (tr : List Op) (r : Room) (key : String)
    (bk : Booking) (store2 : List Booking)
    (hk : data.idempotencyKey = some key)
    (hroom : roomFindById st.rooms data.roomId = some r)
    (hval : validateBookingTimes now data.startTime data.endTime = Except.ok ())
    (hconf : findConflictingBookings st.store data.roomId data.startTime data.endTime none = [])
    (hcr : repoCreate now newId data st.store = Except.ok (bk, store2)) :
    createBookingCore now newId data st tr =
      (Except.ok bk,
       { st with store := store2,
                 idemCache := icacheSet st.idemCache ("idempotency:" ++ key) bk.id idempotencyTtl,
                 bookingCache := bcacheSet st.bookingCache ("booking:" ++ bk.id) bk cacheTtl,
                 events := st.events ++ [Event.bookingCreated bk now] },
       tr ++ [Op.roomFindById data.roomId, Op.validateTimes,
              Op.repoFindConflicting data.roomId data.startTime data.endTime,
              Op.repoCreateOp, Op.cacheSetIdem key, Op.cacheSetBooking bk.id, Op.emitEvent]) := by
  unfold createBookingCore
  rw [hroom, hval]
  dsimp only
  rw [hconf]
  dsimp only
  rw [hcr]
  dsimp only
  rw [hk]
  simp

/-- Shape of createBookingCore when the conflict check finds a conflict. -/
theorem createBookingCore_conflict_eq (now : Int) (newId : String)
    (data : CreateBookingData) (st : SysState) (tr : List Op) (r : Room)
    (c : Booking) (cs : List Booking)
    (hroom : roomFindById st.rooms data.roomId = some r)
    (hval : validateBookingTimes now data.startTime data.endTime = Except.ok ())
    (hconf : findConflictingBookings st.store data.roomId data.startTime data.endTime none =
      c :: cs) :
    createBookingCore now newId data st tr =
      (Except.error (BookingError.roomUnavailable data.roomId data.startTime data.endTime),
       { st with events := st.events ++
           [Event.roomUnavailable data.roomId data.startTime data.endTime c.id now] },
       tr ++ [Op.roomFindById data.roomId, Op.validateTimes,
              Op.repoFindConflicting data.roomId data.startTime data.endTime,
              Op.emitEvent]) := by
  unfold createBookingCore
  rw [hroom, hval]
  dsimp only
  rw [hconf]
  simp

/-- C2: a request whose idempotency token resolves to an existing booking
returns that booking unchanged with no state change, and its trace holds
only the idempotency cache read and store lookups: no room lookup, no
time validation, no conflict check, no create, no event.  A second call
with the same payload and token after a successful first call returns a
booking with the same id and adds no record, and a fresh tokenised
creation from an unused token adds exactly one record. -/
theorem c2_idempotent_replay :
    (∀ (now : Int) (newId : String) (data : CreateBookingData) (st : SysState)
        (k : String) (b : Booking),
        data.idempotencyKey = some k →
        (checkIdempotency k st).1 = some b →
        createBooking now newId data st = (Except.ok b, st, (checkIdempotency k st).2) ∧
        ∀ op ∈ (createBooking now newId data st).2.2,
          (∃ s, op = Op.cacheGetIdem s) ∨ (∃ s, op = Op.repoFindById s) ∨
          (∃ s, op = Op.repoFindByIdemKey s))
  ∧ (∀ (now now2 : Int) (newId newId2 : String) (data : CreateBookingData)
        (st : SysState) (k : String) (b : Booking),
        data.idempotencyKey = some k →
        (createBooking now newId data st).1 = Except.ok b →
        ∃ b2, (createBooking now2 newId2 data (createBooking now newId data st).2.1).1 =
            Except.ok b2 ∧
          b2.id = b.id ∧
          (createBooking now2 newId2 data (createBooking now newId data st).2.1).2.1.store =
            (createBooking now newId data st).2.1.store)
  ∧ (∀ (now : Int) (newId : String) (data : CreateBookingData) (st : SysState)
        (k : String) (r : Room),
        data.idempotencyKey = some k →
        icacheGet st.idemCache ("idempotency:" ++ k) = none →
        findByIdempotencyKey st.store k = none →
        roomFindById st.rooms data.roomId = some r →
        validateBookingTimes now data.startTime data.endTime = Except.ok () →
        findConflictingBookings st.store data.roomId data.startTime data.endTime none = [] →
        (createBooking now newId data st).1 = Except.ok (mkBooking now newId data) ∧
        (createBooking now newId data st).2.1.store =
          st.store ++ [mkBooking now newId data]) := by
  refine ⟨?_, ?_, ?_⟩
  · intro now newId data st k b hk hres
    rcases hchk : checkIdempotency k st with ⟨ob, tr⟩
    rw [hchk] at hres
    dsimp only at hres
    subst hres
    have heq := createBooking_replay now newId data st k b tr hk hchk
    constructor
    · simp only [heq, hchk]
    · intro op hop
      rw [heq] at hop
      dsimp only at hop
      apply checkIdempotency_ops k st op
      rw [hchk]
      exact hop
  · intro now now2 newId newId2 data st k b hk h1
    rcases hchk : checkIdempotency k st with ⟨ob, tr⟩
    rcases ob with _ | b0
    · have hfirst : createBooking now newId data st = createBookingCore now newId data st tr := by
        unfold createBooking
        rw [hk]
        dsimp only
        rw [hchk]
      rw [hfirst] at h1 ⊢
      rcases hroom : roomFindById st.rooms data.roomId with _ | r
      · rw [createBookingCore_noRoom_eq now newId data st tr hroom] at h1
        exact absurd h1 (by simp)
      · rcases hval : validateBookingTimes now data.startTime data.endTime with msg | u
        · rw [createBookingCore_invalid_eq now newId data st tr r msg hroom hval] at h1
          exact absurd h1 (by simp)
        · rcases u
          rcases hconf : findConflictingBookings st.store data.roomId data.startTime
              data.endTime none with _ | ⟨c, cs⟩
          · rcases hcr : repoCreate now newId data st.store with e | ⟨bk, store2⟩
            · rw [createBookingCore_storeError_eq now newId data st tr r e
                hroom hval hconf hcr] at h1
              exact absurd h1 (by simp)
            · have hshape := createBookingCore_success_some_eq now newId data st tr r k
                bk store2 hk hroom hval hconf hcr
              rw [hshape] at h1 ⊢
              dsimp only at h1 ⊢
              have hb : bk = b := by simpa using h1
              subst hb
              obtain ⟨hbk, hstore2⟩ := repoCreate_ok now newId data st.store bk store2 hcr
              have hic : icacheGet (icacheSet st.idemCache ("idempotency:" ++ k) bk.id
                  idempotencyTtl) ("idempotency:" ++ k) = some bk.id :=
                icacheGet_set_same _ _ _ _
              have hsome : (List.find? (fun x => x.id == bk.id) store2).isSome := by
                rw [hstore2, List.find?_isSome]
                refine ⟨mkBooking now newId data, List.mem_append_right _ ?_, ?_⟩
                · exact List.mem_singleton.mpr rfl
                · rw [hbk]
                  simp
              obtain ⟨b2, hb2⟩ := Option.isSome_iff_exists.mp hsome
              have hb2id : (b2.id == bk.id) = true := by
                simpa using List.find?_some hb2
              have hchk2 : checkIdempotency k
                  { st with store := store2,
                            idemCache := icacheSet st.idemCache ("idempotency:" ++ k)
                              bk.id idempotencyTtl,
                            bookingCache := bcacheSet st.bookingCache ("booking:" ++ bk.id)
                              bk cacheTtl,
                            events := st.events ++ [Event.bookingCreated bk now] } =
                  (some b2, [Op.cacheGetIdem k, Op.repoFindById bk.id]) := by
                unfold checkIdempotency
                dsimp only
                rw [hic]
                dsimp only
                unfold findById
                rw [hb2]
              have hsecond := createBooking_replay now2 newId2 data _ k b2 _ hk hchk2
              rw [hsecond]
              exact ⟨b2, rfl, by simpa using hb2id, rfl⟩
          · rw [createBookingCore_conflict_eq now newId data st tr r c cs
              hroom hval hconf] at h1
            exact absurd h1 (by simp)
    · have hfirst := createBooking_replay now newId data st k b0 tr hk hchk
      rw [hfirst] at h1 ⊢
      dsimp only at h1 ⊢
      have hb : b0 = b := by simpa using h1
      subst hb
      have hsecond := createBooking_replay now2 newId2 data st k b0 tr hk hchk
      rw [hsecond]
      exact ⟨b0, rfl, rfl, rfl⟩
  · intro now newId data st k r hk hic hfbk hroom hval hconf
    have hchk : checkIdempotency k st =
        (none, [Op.cacheGetIdem k, Op.repoFindByIdemKey k]) := by
      unfold checkIdempotency
      rw [hic]
      dsimp only
      rw [hfbk]
    have hfirst : createBooking now newId data st =
        createBookingCore now newId data st [Op.cacheGetIdem k, Op.repoFindByIdemKey k] := by
      unfold createBooking
      rw [hk]
      dsimp only
      rw [hchk]
    have hcr : repoCreate now newId data st.store =
        Except.ok (mkBooking now newId data, st.store ++ [mkBooking now newId data]) := by
      unfold repoCreate
      rw [hk]
      dsimp only
      rw [findByIdempotencyKey_none_any st.store k hfbk]
      simp
    have hshape := createBookingCore_success_some_eq now newId data st
      [Op.cacheGetIdem k, Op.repoFindByIdemKey k] r k (mkBooking now newId data)
      (st.store ++ [mkBooking now newId data]) hk hroom hval hconf hcr
    rw [hfirst, hshape]
    exact ⟨rfl, rfl⟩

/-- A fresh state holding only room R1. -/
def stR1 : SysState :=
  { rooms := [roomR1], store := [], bookingCache := [], idemCache := [], events := [] }

/-- A tokenised creation request for room R1. -/
def dataTok : CreateBookingData :=
  { roomId := "R1", userId := "u1", title := "weekly sync", description := none,
    startTime := 1000000, endTime := 2000000, idempotencyKey := some "tok" }

/-- Witness for C2: from a fresh state, the first call with token tok
creates the booking, and the second identical call returns a booking with
the same id while leaving the store unchanged. -/
theorem c2_idempotent_replay_witness :
    (createBooking 0 "B1" dataTok stR1).1 = Except.ok (mkBooking 0 "B1" dataTok) ∧
    ∃ b2, (createBooking 7 "B2" dataTok (createBooking 0 "B1" dataTok stR1).2.1).1 =
        Except.ok b2 ∧
      b2.id = (mkBooking 0 "B1" dataTok).id ∧
      (createBooking 7 "B2" dataTok (createBooking 0 "B1" dataTok stR1).2.1).2.1.store =
        (createBooking 0 "B1" dataTok stR1).2.1.store := by
  have hC := c2_idempotent_replay.2.2 0 "B1" dataTok stR1 "tok" roomR1 rfl rfl rfl rfl rfl rfl
  exact ⟨hC.1, c2_idempotent_replay.2.1 0 7 "B1" "B2" dataTok stR1 "tok"
    (mkBooking 0 "B1" dataTok) rfl hC.1⟩

/-- C5 (amended): when the store write inside createBooking fails, the
engine propagates the store error to the caller unchanged; no
fetch-and-return translation of uniqueness violations exists. -/
theorem c5_unique_violation_propagates (now : Int) (newId : String)
    (data : CreateBookingData) (st : SysState) (r : Room) (e : RepoError)
    (hidem : idemUnresolved data st)
    (hroom : roomFindById st.rooms data.roomId = some r)
    (hval : validateBookingTimes now data.startTime data.endTime = Except.ok ())
    (hconf : findConflictingBookings st.store data.roomId data.startTime data.endTime none = [])
    (hcr : repoCreate now newId data st.store = Except.error e) :
    (createBooking now newId data st).1 = Except.error (BookingError.storeError e) ∧
    (createBooking now newId data st).2.1 = st := by
  obtain ⟨tr, heq⟩ := createBooking_eq_core now newId data st hidem
  rw [heq, createBookingCore_storeError_eq now newId data st tr r e hroom hval hconf hcr]
  exact ⟨rfl, rfl⟩

/-- A booking that already consumed the token tok. -/
def bookingTok : Booking :=
  { id := "K", roomId := "R1", userId := "u9", title := "earlier", description := none,
    startTime := 100000000, endTime := 101000000, status := BookingStatus.CONFIRMED,
    idempotencyKey := some "tok", createdAt := 0, updatedAt := 0, cancelledAt := none }

/-- A state whose store already holds a booking with token tok while the
idempotency cache entry points at a booking id that no longer resolves. -/
def stPoison : SysState :=
  { rooms := [roomR1], store := [bookingTok], bookingCache := [],
    idemCache := [⟨"idempotency:tok", "GONE", 86400⟩], events := [] }

/-- Counterexample to C5 as stated: a create request whose token is
already consumed in the store but unresolvable through the idempotency
step makes the store write fail with a uniqueness violation, and
createBooking surfaces that store error instead of fetching and returning
the existing booking with the token. -/
theorem c5_counterexample :
    (createBooking 0 "B9" dataTok stPoison).1 =
        Except.error (BookingError.storeError RepoError.uniqueViolation) ∧
    findByIdempotencyKey stPoison.store "tok" = some bookingTok ∧
    (createBooking 0 "B9" dataTok stPoison).1 ≠ Except.ok bookingTok := by
  refine ⟨rfl, rfl, ?_⟩
  intro h
  exact Except.noConfusion
    (show (Except.error (BookingError.storeError RepoError.uniqueViolation) :
        Except BookingError Booking) = Except.ok bookingTok from h)

/-- Witness for the amended C5 at the poisoned state: the error surfaces
and the state is left unchanged. -/
theorem c5_unique_violation_propagates_witness :
    (createBooking 0 "B9" dataTok stPoison).1 =
        Except.error (BookingError.storeError RepoError.uniqueViolation) ∧
    (createBooking 0 "B9" dataTok stPoison).2.1 = stPoison :=
  c5_unique_violation_propagates 0 "B9" dataTok stPoison roomR1 RepoError.uniqueViolation
    (by intro k hk; cases hk; rfl) rfl rfl rfl rfl

/-- No two bookings on the same room, both non-cancelled, overlap as
half-open intervals. -/
def NoOverlapInv (store : List Booking) : Prop :=
  store.Pairwise (fun a b => a.roomId = b.roomId → a.status ≠ BookingStatus.CANCELLED →
    b.status ≠ BookingStatus.CANCELLED →
    ¬(a.startTime < b.endTime ∧ b.startTime < a.endTime))

/-- Appending a booking that passed the conflict check keeps the store
overlap-free. -/
theorem noOverlap_append_new (now : Int) (newId : String) (data : CreateBookingData)
    (store : List Booking) (hinv : NoOverlapInv store)
    (hconf : findConflictingBookings store data.roomId data.startTime data.endTime none = []) :
    NoOverlapInv (store ++ [mkBooking now newId data]) := by
  have hconf' : List.filter (isConflicting data.roomId data.startTime data.endTime none)
      store = [] := hconf
  have hnone := List.filter_eq_nil_iff.mp hconf'
  unfold NoOverlapInv at hinv ⊢
  rw [List.pairwise_append]
  refine ⟨hinv, by simp, ?_⟩
  intro a ha b hb
  rw [List.mem_singleton] at hb
  subst hb
  intro hroomEq hastat _ hov
  apply hnone a ha
  unfold isConflicting
  have h1 : (a.roomId == data.roomId) = true := by
    rw [beq_iff_eq]
    exact hroomEq
  have h2 : (a.status == BookingStatus.CANCELLED) = false := by
    rw [beq_eq_false_iff_ne]
    exact hastat
  have h3 : a.startTime < data.endTime := hov.1
  have h4 : data.startTime < a.endTime := hov.2
  simp [h1, h2, h3, h4]

/-- The tail of createBooking preserves the overlap invariant. -/
theorem createBookingCore_preserves_inv (now : Int) (newId : String)
    (data : CreateBookingData) (st : SysState) (tr : List Op)
    (hinv : NoOverlapInv st.store) :
    NoOverlapInv (createBookingCore now newId data st tr).2.1.store := by
  rcases hroom : roomFindById st.rooms data.roomId with _ | r
  · rw [createBookingCore_noRoom_eq now newId data st tr hroom]
    exact hinv
  · rcases hval : validateBookingTimes now data.startTime data.endTime with msg | u
    · rw [createBookingCore_invalid_eq now newId data st tr r msg hroom hval]
      exact hinv
    · rcases u
      rcases hconf : findConflictingBookings st.store data.roomId data.startTime
          data.endTime none with _ | ⟨c, cs⟩
      · rcases hcr : repoCreate now newId data st.store with e | ⟨bk, store2⟩
        · rw [createBookingCore_storeError_eq now newId data st tr r e hroom hval hconf hcr]
          exact hinv
        · obtain ⟨hbk, hstore2⟩ := repoCreate_ok now newId data st.store bk store2 hcr
          rcases hkk : data.idempotencyKey with _ | key
          · rw [createBookingCore_success_none_eq now newId data st tr r bk store2
              hkk hroom hval hconf hcr]
            dsimp only
            rw [hstore2]
            exact noOverlap_append_new now newId data st.store hinv hconf
          · rw [createBookingCore_success_some_eq now newId data st tr r key bk store2
              hkk hroom hval hconf hcr]
            dsimp only
            rw [hstore2]
            exact noOverlap_append_new now newId data st.store hinv hconf
      · rw [createBookingCore_conflict_eq now newId data st tr r c cs hroom hval hconf]
        exact hinv

theorem createBooking_preserves_inv (now : Int) (newId : String)
    (data : CreateBookingData) (st : SysState) (hinv : NoOverlapInv st.store) :
    NoOverlapInv (createBooking now newId data st).2.1.store := by
  rcases hk : data.idempotencyKey with _ | k
  · have hfirst : createBooking now newId data st = createBookingCore now newId data st [] := by
      unfold createBooking
      rw [hk]
    rw [hfirst]
    exact createBookingCore_preserves_inv now newId data st [] hinv
  · rcases hchk : checkIdempotency k st with ⟨ob, tr⟩
    rcases ob with _ | b0
    · have hfirst : createBooking now newId data st = createBookingCore now newId data st tr := by
        unfold createBooking
        rw [hk]
        dsimp only
        rw [hchk]
      rw [hfirst]
      exact createBookingCore_preserves_inv now newId data st tr hinv
    · rw [createBooking_replay now newId data st k b0 tr hk hchk]
      exact hinv

/-- Cancelling a booking cannot create an overlap among non-cancelled
bookings. -/
theorem noOverlap_map_cancel (store : List Booking) (id : String) (now : Int)
    (hinv : NoOverlapInv store) :
    NoOverlapInv (store.map (fun x => if x.id == id then cancelledVersion now x else x)) := by
  unfold NoOverlapInv at hinv ⊢
  refine List.Pairwise.map _ ?_ hinv
  intro a b hR hroomEq hastat hbstat hov
  by_cases ha : (a.id == id) = true
  · apply hastat
    rw [if_pos ha]
    rfl
  · by_cases hb : (b.id == id) = true
    · apply hbstat
      rw [if_pos hb]
      rfl
    · rw [if_neg ha] at hastat
      rw [if_neg hb] at hbstat
      rw [if_neg ha, if_neg hb] at hroomEq hov
      exact hR hroomEq hastat hbstat hov

theorem cancelBooking_preserves_inv (now : Int) (id : String) (reason : Option String)
    (st : SysState) (hinv : NoOverlapInv st.store) :
    NoOverlapInv (cancelBooking now id reason st).2.1.store := by
  rcases hfind : findById st.store id with _ | b
  · unfold cancelBooking
    rw [hfind]
    exact hinv
  · by_cases hstat : b.status = BookingStatus.CANCELLED
    · unfold cancelBooking
      rw [hfind]
      dsimp only
      rw [hstat]
      exact hinv
    · rw [cancelBooking_success_eq now id reason st b hfind hstat]
      dsimp only
      exact noOverlap_map_cancel st.store id now hinv

theorem getBooking_store_eq (id : String) (st : SysState) :
    (getBooking id st).2.1.store = st.store := by
  unfold getBooking
  rcases h : bcacheGet st.bookingCache ("booking:" ++ id) with _ | b
  · rcases h2 : findById st.store id with _ | b <;> rfl
  · rfl

/-- States reachable from a fresh store through the engine operations. -/
inductive Reachable : SysState → Prop where
  | init (rooms : List Room) :
      Reachable { rooms := rooms, store := [], bookingCache := [], idemCache := [],
                  events := [] }
  | create (now : Int) (newId : String) (data : CreateBookingData) {st : SysState} :
      Reachable st → Reachable (createBooking now newId data st).2.1
  | get (id : String) {st : SysState} :
      Reachable st → Reachable (getBooking id st).2.1
  | list (f : Option BookingFilter) {st : SysState} :
      Reachable st → Reachable (getBookings f st).2.1
  | cancel (now : Int) (id : String) (reason : Option String) {st : SysState} :
      Reachable st → Reachable (cancelBooking now id reason st).2.1

/-- C1: every reachable state of the booking store satisfies the overlap
invariant: no two non-cancelled bookings on the same resource overlap,
because createBooking rejects any request whose interval conflicts with
an existing non-cancelled booking and the other operations preserve the
invariant. -/
theorem c1_no_overlap_invariant :
    (∀ st : SysState, Reachable st → NoOverlapInv st.store)
  ∧ (∀ (now : Int) (newId : String) (data : CreateBookingData) (st : SysState)
        (r : Room) (c : Booking) (cs : List Booking),
        idemUnresolved data st →
        roomFindById st.rooms data.roomId = some r →
        validateBookingTimes now data.startTime data.endTime = Except.ok () →
        findConflictingBookings st.store data.roomId data.startTime data.endTime none =
          c :: cs →
        (createBooking now newId data st).1 =
          Except.error (BookingError.roomUnavailable data.roomId data.startTime data.endTime) ∧
        (createBooking now newId data st).2.1.store = st.store) := by
  constructor
  · intro st h
    induction h with
    | init rooms => simp [NoOverlapInv]
    | create now newId data _ ih => exact createBooking_preserves_inv now newId data _ ih
    | get id _ ih =>
        rw [getBooking_store_eq]
        exact ih
    | list f _ ih => exact ih
    | cancel now id reason _ ih => exact cancelBooking_preserves_inv now id reason _ ih
  · intro now newId data st r c cs hidem hroom hval hconf
    obtain ⟨tr, heq⟩ := createBooking_eq_core now newId data st hidem
    rw [heq, createBookingCore_conflict_eq now newId data st tr r c cs hroom hval hconf]
    exact ⟨rfl, rfl⟩

/-- Witness for C1: the state reached by one successful creation from a
fresh store satisfies the invariant, and the overlapping request against
booking A is rejected with the store untouched. -/
theorem c1_no_overlap_invariant_witness :
    NoOverlapInv ((createBooking 0 "B1" dataTok stR1).2.1).store ∧
    (createBooking 0 "B" dataConflict stOneBooking).1 =
      Except.error (BookingError.roomUnavailable "R1" 40000000 44000000) :=
  ⟨c1_no_overlap_invariant.1 _ (Reachable.create 0 "B1" dataTok (Reachable.init [roomR1])),
   (c1_no_overlap_invariant.2 0 "B" dataConflict stOneBooking roomR1 bookingA []
     (by intro k hk; cases hk) rfl rfl rfl).1⟩
